import Mathlib

/-! Verification of the lcapy linear one-port / two-port network algebra
(src/lcapy/oneport.py and src/lcapy/twoport.py).

The symbolic expressions that the source manipulates through sympy are
modelled as elements of an arbitrary field `K` with decidable equality;
division by a zero expression takes the junk value `0`, and theorems that
need a denominator to be nonzero carry that as an explicit hypothesis.
Concrete evaluations instantiate `K := ℚ`. -/

namespace Lcapy

variable {K : Type} [Field K] [DecidableEq K]

/-- An immutable 2x2 matrix of symbolic expressions, written out by entries
(`TwoPortMatrix`, twoport.py 106-116; the representation kind A/B/G/H/Y/Z is
carried by which conversion function is applied to it). -/
structure Matrix2 (K : Type) where
  m11 : K
  m12 : K
  m21 : K
  m22 : K
  deriving DecidableEq, Repr

/-- Matrix determinant of a 2x2 symbolic matrix, as `self.det()` computes it. -/
def Matrix2.det (M : Matrix2 K) : K :=
  M.m11 * M.m22 - M.m12 * M.m21

/-- Matrix product, as sympy evaluates `M * N` on 2x2 matrices. -/
def Matrix2.mul (M N : Matrix2 K) : Matrix2 K :=
  ⟨M.m11 * N.m11 + M.m12 * N.m21, M.m11 * N.m12 + M.m12 * N.m22,
   M.m21 * N.m11 + M.m22 * N.m21, M.m21 * N.m12 + M.m22 * N.m22⟩

instance : Mul (Matrix2 K) := ⟨Matrix2.mul⟩

/-- Entrywise matrix sum, as sympy evaluates `M + N`. -/
def Matrix2.add (M N : Matrix2 K) : Matrix2 K :=
  ⟨M.m11 + N.m11, M.m12 + N.m12, M.m21 + N.m21, M.m22 + N.m22⟩

instance : Add (Matrix2 K) := ⟨Matrix2.add⟩

/-- `AMatrix.B` (twoport.py 290-298): the inverse of the chain matrix,
`BMatrix(A22 / det, -A12 / det, -A21 / det, A11 / det)`.  The source also
warns when `det == 0` ("Producing dodgy B matrix"); only the returned value
is modelled here. -/
def AMatrix.B (M : Matrix2 K) : Matrix2 K :=
  ⟨M.m22 / M.det, -M.m12 / M.det, -M.m21 / M.det, M.m11 / M.det⟩

/-- `BMatrix.A` (twoport.py 421-426): the inverse of the inverse-chain
matrix, `AMatrix(B22 / det, -B12 / det, -B21 / det, B11 / det)`. -/
def BMatrix.A (M : Matrix2 K) : Matrix2 K :=
  ⟨M.m22 / M.det, -M.m12 / M.det, -M.m21 / M.det, M.m11 / M.det⟩

/-- `AMatrix.Z` (twoport.py 318-326): warns with "Producing dodgy Z matrix"
when `A21 == 0`, and returns
`ZMatrix(A11 / A21, det / A21, 1 / A21, A22 / A21)` either way.  The first
component records whether the warning fired. -/
def AMatrix.Z (M : Matrix2 K) : Bool × Matrix2 K :=
  (decide (M.m21 = 0),
   ⟨M.m11 / M.m21, M.det / M.m21, 1 / M.m21, M.m22 / M.m21⟩)

/-- `AMatrix.Zseries` (twoport.py 334-340): the chain matrix of a pure
series impedance, `cls(1, Zval, 0, 1)`. -/
def AMatrix.Zseries (Zval : K) : Matrix2 K :=
  ⟨1, Zval, 0, 1⟩

/-- `BMatrix.Y` (twoport.py 446-449): the admittance matrix obtained from an
inverse-chain matrix, `YMatrix(-B11 / B12, 1 / B12, det / B12, -B22 / B12)`. -/
def BMatrix.Y (M : Matrix2 K) : Matrix2 K :=
  ⟨-M.m11 / M.m12, 1 / M.m12, M.det / M.m12, -M.m22 / M.m12⟩

/-- `BMatrix.Zseries` (twoport.py 463-469): `cls(1, -Zval, 0, 1)`. -/
def BMatrix.Zseries (Zval : K) : Matrix2 K :=
  ⟨1, -Zval, 0, 1⟩

/-- `BMatrix.Yshunt` (twoport.py 479-485): `cls(1, 0, -Yval, 1)`. -/
def BMatrix.Yshunt (Yval : K) : Matrix2 K :=
  ⟨1, 0, -Yval, 1⟩

/-- A one-port is carried by one of the two dual representations: a Thevenin
pair `(Z, Voc)` (class `Thevenin`, oneport.py 719-741) or a Norton pair
`(Y, Isc)` (class `Norton`, oneport.py 641-671). -/
inductive OnePort (K : Type) where
  | thevenin (Z Voc : K)
  | norton (Y Isc : K)
  deriving DecidableEq

/-- Impedance of a one-port: stored for a Thevenin pair; `Norton.Z` returns
`Zs(1 / self.Y)` (oneport.py 673-675). -/
def OnePort.Z : OnePort K → K
  | .thevenin Zval _ => Zval
  | .norton Yval _ => 1 / Yval

/-- Admittance of a one-port: `Thevenin.Y` returns `Ys(1 / self.Z)`
(oneport.py 743-745); stored for a Norton pair. -/
def OnePort.Y : OnePort K → K
  | .thevenin Zval _ => 1 / Zval
  | .norton Yval _ => Yval

/-- Open-circuit voltage: stored for a Thevenin pair; `Norton.Voc` returns
`Isc / Y` (oneport.py 677-679). -/
def OnePort.Voc : OnePort K → K
  | .thevenin _ Vval => Vval
  | .norton Yval Ival => Ival / Yval

/-- Short-circuit current: `Thevenin.Isc` returns `Voc / Z` (oneport.py
747-751); stored for a Norton pair. -/
def OnePort.Isc : OnePort K → K
  | .thevenin Zval Vval => Vval / Zval
  | .norton _ Ival => Ival

/-- Python class of a concrete two-port carrier, as far as the `isinstance`
checks in the combinators distinguish it (`Shunt` and `Series` are the two
special-cased classes; everything else behaves alike). -/
inductive TPClass where
  | seriesCls
  | shuntCls
  | otherCls
  deriving DecidableEq

/-- `TwoPortBModel` (twoport.py 1519-1536): an inverse-chain matrix together
with the output-referred source pair `(V2b, I2b)`; `cls` records which
concrete class constructed the object, for the `isinstance` checks. -/
structure TwoPortB (K : Type) where
  cls : TPClass
  B : Matrix2 K
  V2b : K
  I2b : K
  deriving DecidableEq

/-- `Series(OP)` (twoport.py 2016-2021):
`TwoPortBModel(BMatrix.Zseries(OP.Z), Vs(OP.Voc), Is(0))`. -/
def Series (OP : OnePort K) : TwoPortB K :=
  ⟨.seriesCls, BMatrix.Zseries OP.Z, OP.Voc, 0⟩

/-- `Shunt(OP)` (twoport.py 2043-2048):
`TwoPortBModel(BMatrix.Yshunt(OP.Y), Vs(0), Is(OP.Isc))`. -/
def Shunt (OP : OnePort K) : TwoPortB K :=
  ⟨.shuntCls, BMatrix.Yshunt OP.Y, 0, OP.Isc⟩

/-- `Chain.__init__` (twoport.py 1848-1863), specialised to the exactly two
arguments `_check_twoport_args` admits: start from the last network's
inverse-chain matrix and source vector, then fold the earlier network in
(`foo += B * Vector(arg.V2b, arg.I2b); B = B * arg.B`). -/
def Chain (T1 T2 : TwoPortB K) : TwoPortB K :=
  let B0 := T2.B
  let foo1 := T2.V2b + (B0.m11 * T1.V2b + B0.m12 * T1.I2b)
  let foo2 := T2.I2b + (B0.m21 * T1.V2b + B0.m22 * T1.I2b)
  ⟨.otherCls, B0 * T1.B, foo1, foo2⟩

/-- `TwoPort.I1y` (twoport.py 1050-1051 and 1560-1561): `-V2b / B12`. -/
def TwoPortB.I1y (T : TwoPortB K) : K :=
  -T.V2b / T.B.m12

/-- `TwoPort.I2y` (twoport.py 1053-1055 and 1563-1565):
`V2b * B22 / B12 - I2b`. -/
def TwoPortB.I2y (T : TwoPortB K) : K :=
  T.V2b * T.B.m22 / T.B.m12 - T.I2b

/-- `TwoPort.Y` for a B-model carrier (twoport.py 1014-1017): the admittance
matrix derived from the stored inverse-chain matrix. -/
def TwoPortB.Y (T : TwoPortB K) : Matrix2 K :=
  BMatrix.Y T.B

/-- `TwoPort.isseries` (twoport.py 982-986):
`(B11 == 1) and (B22 == 1) and (B21 == 0)`. -/
def TwoPortB.isseries (T : TwoPortB K) : Bool :=
  decide (T.B.m11 = 1 ∧ T.B.m22 = 1 ∧ T.B.m21 = 0)

/-- The admittance model a `Par2` builds (`TwoPortYModel`, twoport.py
1726-1742): admittance matrix plus the port source currents. -/
structure YModel (K : Type) where
  Y : Matrix2 K
  I1y : K
  I2y : K
  deriving DecidableEq

/-- `Par2.__init__` (twoport.py 1883-1904) for the two arguments
`_check_twoport_args` admits: the printed warning fires exactly when an
argument is an instance of class `Shunt`; the admittance matrices and the
port source currents of the arguments accumulate.  The first component
records whether the warning fired. -/
def Par2 (T1 T2 : TwoPortB K) : Bool × YModel K :=
  (decide (T1.cls = TPClass.shuntCls) || decide (T2.cls = TPClass.shuntCls),
   ⟨T1.Y + T2.Y, T1.I1y + T2.I1y, T1.I2y + T2.I2y⟩)

/-- The errors the modelled constructors can raise. -/
inductive PyError where
  | valueError
  | typeError
  deriving DecidableEq

/-- The primitive one-port classes of oneport.py, each carrying its defining
parameters: `R` (893-901), `G` (904-912), `L` with initial current
(923-945), `C` with initial voltage (948-970), `Y` (973-980), `Z`
(983-990), `V` (1020-1035), `Vdc` (1053-1070), `Vstep` (1038-1050), `I`
(1143-1160), `Idc` (1177-1198), `Istep` (1162-1174). -/
inductive Prim (K : Type) where
  | R (val : K)
  | G (val : K)
  | L (val i0 : K)
  | C (val v0 : K)
  | Y (val : K)
  | Z (val : K)
  | V (val : K)
  | Vdc (val : K)
  | Vstep (val : K)
  | I (val : K)
  | Idc (val : K)
  | Istep (val : K)
  deriving DecidableEq

/-- `isinstance(x, V)`: true only for class `V` itself — `Vdc`, `Vstep`,
`Vac`, `sV` derive from `VoltageSource`, not from `V`, and `V` has no
subclasses in oneport.py. -/
def Prim.isV : Prim K → Bool
  | .V _ => true
  | _ => false

/-- `isinstance(x, I)`: true only for class `I` itself — `Idc`, `Istep`,
`Iac`, `sI` derive from `CurrentSource`, not from `I`. -/
def Prim.isI : Prim K → Bool
  | .I _ => true
  | _ => false

/-- The doubly nested scan over argument pairs shared by `Par.__init__`
(oneport.py 498-507) and `Ser.__init__` (oneport.py 595-604): raise
`ValueError` as soon as a pair of children both pass the forbidden
`isinstance` test.  The prints for a single source child are warnings only
and are not modelled. -/
def pairScan (p : Prim K → Bool) : List (Prim K) → Except PyError Unit
  | [] => .ok ()
  | a :: rest =>
      if p a && rest.any p then .error .valueError
      else pairScan p rest

/-- `Par.__init__` (oneport.py 492-507): raises when two children are both
instances of class `V` ("Voltage sources connected in parallel").  The
values of the two sources are never compared. -/
def Par_init (args : List (Prim K)) : Except PyError Unit :=
  pairScan (fun q => q.isV) args

/-- `Ser.__init__` (oneport.py 589-604): raises when two children are both
instances of class `I` ("Current sources connected in series").  A single
current source among other elements only triggers the printed warning. -/
def Ser_init (args : List (Prim K)) : Except PyError Unit :=
  pairScan (fun q => q.isI) args

/-- The Python class of a primitive, for the `arg1.__class__ != arg2.__class__`
test at the head of `ParSer._combine` (oneport.py 306). -/
inductive PrimClass where
  | R
  | G
  | L
  | C
  | Y
  | Z
  | V
  | Vdc
  | Vstep
  | I
  | Idc
  | Istep
  deriving DecidableEq

/-- `x.__class__` of a primitive one-port. -/
def Prim.cls : Prim K → PrimClass
  | .R _ => .R
  | .G _ => .G
  | .L _ _ => .L
  | .C _ _ => .C
  | .Y _ => .Y
  | .Z _ => .Z
  | .V _ => .V
  | .Vdc _ => .Vdc
  | .Vstep _ => .Vstep
  | .I _ => .I
  | .Idc _ => .Idc
  | .Istep _ => .Istep

/-- `isinstance(x, V) and x.Voc == 0` for the identity-element eliding of
`_combine` (oneport.py 308-311): the stored voltage of a `V` is zero. -/
def Prim.isZeroV : Prim K → Bool
  | .V v => decide (v = 0)
  | _ => false

/-- `isinstance(x, Z) and x.Z == 0` (oneport.py 312-315). -/
def Prim.isZeroZ : Prim K → Bool
  | .Z z => decide (z = 0)
  | _ => false

/-- `ParSer._combine` for the `Ser` operator (oneport.py 304-349).  Children
of different classes only combine through the identity elements (a
zero-voltage `V` or zero-impedance `Z` acts as a wire); children of the same
class combine by the closed-form series rules, `None` (here `Option.none`)
when no rule applies.  Mismatched initial currents on two inductors raise
`ValueError`.  For two `V` children the source builds `V(arg1 + arg2)`,
the source summing the two voltages; it is modelled as `V (v1 + v2)`. -/
def combineSer (arg1 arg2 : Prim K) : Except PyError (Option (Prim K)) :=
  if arg1.cls ≠ arg2.cls then
    .ok (if arg1.isZeroV then some arg2
         else if arg2.isZeroV then some arg1
         else if arg1.isZeroZ then some arg2
         else if arg2.isZeroZ then some arg1
         else none)
  else
    match arg1, arg2 with
    | .I _, _ => .ok none
    | .Vdc v1, .Vdc v2 => .ok (some (.Vdc (v1 + v2)))
    | .V v1, .V v2 => .ok (some (.V (v1 + v2)))
    | .R r1, .R r2 => .ok (some (.R (r1 + r2)))
    | .L l1 i1, .L l2 i2 =>
        if i1 ≠ i2 then .error .valueError
        else .ok (some (.L (l1 + l2) i1))
    | .G g1, .G g2 => .ok (some (.G (g1 * g2 / (g1 + g2))))
    | .C c1 v1, .C c2 v2 => .ok (some (.C (c1 * c2 / (c1 + c2)) (v1 + v2)))
    | _, _ => .ok none

/-- The inner loop of the `ParSer.simplify` pairwise scan (oneport.py
416-435): walk the remaining slots with the current `arg1`; a combined slot
is masked out (`args[m] = None`) and the accumulator replaced by the
combined component. -/
def scanInner (combine : Prim K → Prim K → Except PyError (Option (Prim K)))
    (a : Prim K) :
    List (Option (Prim K)) → Except PyError (Prim K × List (Option (Prim K)))
  | [] => .ok (a, [])
  | none :: rest => do
      let (a1, rest1) ← scanInner combine a rest
      .ok (a1, none :: rest1)
  | some b :: rest => do
      match ← combine a b with
      | some c => do
          let (a1, rest1) ← scanInner combine c rest
          .ok (a1, none :: rest1)
      | none => do
          let (a1, rest1) ← scanInner combine a rest
          .ok (a1, some b :: rest1)

/-- The outer loop of the `ParSer.simplify` pairwise scan (oneport.py
404-435), driven by fuel (the list length, which `scanInner` preserves):
each still-live slot becomes the accumulator for one inner scan over the
slots after it. -/
def scanOuter (combine : Prim K → Prim K → Except PyError (Option (Prim K))) :
    Nat → List (Option (Prim K)) → Except PyError (List (Option (Prim K)))
  | 0, l => .ok l
  | _ + 1, [] => .ok []
  | n + 1, none :: rest => do
      let rest1 ← scanOuter combine n rest
      .ok (none :: rest1)
  | n + 1, some a :: rest => do
      let (a1, rest1) ← scanInner combine a rest
      let rest2 ← scanOuter combine n rest1
      .ok (some a1 :: rest2)

/-- `ParSer.simplify` (oneport.py 377-443) for a `Ser` whose children are
all primitive (composite children, which the scan skips, are outside this
model; with no composite child the flattening pass is the identity): run
the pairwise combination scan, then drop the masked slots (oneport.py
437-441).  A singleton result means the combination collapsed to that
single component, which `simplify` returns directly. -/
def simplifySer (args : List (Prim K)) : Except PyError (List (Prim K)) := do
  let slots ← scanOuter combineSer args.length (args.map some)
  .ok (slots.filterMap id)

/-- Modelled from the spec: `Zs.C`, the s-domain impedance of a capacitance,
is defined in lcapy/core.py which is not among the source files; spec
section 4.1 gives the capacitor rule `Z = 1/(sC)`.  The Laplace variable is
passed as the argument `s`. -/
def Zs.C (Cval s : K) : K :=
  1 / (s * Cval)

/-- The Python classes whose inheritance matters to the two delegating
constructors, with `object` at the root. -/
inductive PyClass where
  | objectCls
  | networkCls
  | twoPortCls
  | twoPortBModelCls
  | twoPortGModelCls
  | twoPortHModelCls
  | hybrid2Cls
  | inverseHybrid2Cls
  | onePortCls
  | theveninCls
  | xtalCls
  | ferriteBeadCls
  deriving DecidableEq

/-- Method-resolution order of each modelled class: every class of the
source is a single-inheritance chain (`Network` from network.py;
`TwoPort(Network)` twoport.py 845; `TwoPortBModel(TwoPort)` 1460;
`TwoPortGModel(TwoPort)` 1576; `TwoPortHModel(TwoPort)` 1628;
`Hybrid2(TwoPortHModel)` 1955; `InverseHybrid2(TwoPortGModel)` 1978;
`OnePort(Network)` oneport.py 48; `Thevenin(OnePort)` 719;
`Xtal(Thevenin)` 1240; `FerriteBead(Thevenin)` 1264). -/
def PyClass.mro : PyClass → List PyClass
  | .objectCls => [.objectCls]
  | .networkCls => [.networkCls, .objectCls]
  | .twoPortCls => [.twoPortCls, .networkCls, .objectCls]
  | .twoPortBModelCls => [.twoPortBModelCls, .twoPortCls, .networkCls, .objectCls]
  | .twoPortGModelCls => [.twoPortGModelCls, .twoPortCls, .networkCls, .objectCls]
  | .twoPortHModelCls => [.twoPortHModelCls, .twoPortCls, .networkCls, .objectCls]
  | .hybrid2Cls => [.hybrid2Cls, .twoPortHModelCls, .twoPortCls, .networkCls, .objectCls]
  | .inverseHybrid2Cls => [.inverseHybrid2Cls, .twoPortGModelCls, .twoPortCls, .networkCls, .objectCls]
  | .onePortCls => [.onePortCls, .networkCls, .objectCls]
  | .theveninCls => [.theveninCls, .onePortCls, .networkCls, .objectCls]
  | .xtalCls => [.xtalCls, .theveninCls, .onePortCls, .networkCls, .objectCls]
  | .ferriteBeadCls => [.ferriteBeadCls, .theveninCls, .onePortCls, .networkCls, .objectCls]

/-- CPython's `super(target, self)`: raises
`TypeError: super(type, obj): obj must be an instance or subtype of type`
unless the class of `self` has `target` in its method-resolution order.
Only this check matters to the modelled constructors; the bound super
object itself is not modelled. -/
def superBind (target selfCls : PyClass) : Except PyError Unit :=
  if target ∈ selfCls.mro then .ok ()
  else .error .typeError

/-- `TwoPortGModel` (twoport.py 1576-1598): an inverse-hybrid matrix with
the source pair `(I1g, V2g)`. -/
structure TwoPortG (K : Type) where
  G : Matrix2 K
  I1g : K
  V2g : K
  deriving DecidableEq

/-- `InverseHybrid2.__init__` (twoport.py 1983-1998): sums the inverse-hybrid
matrices and source terms of its two arguments, then delegates through
`super(Hybrid2, self).__init__(G, I1g, V2g)` — `Hybrid2`, although the
class derives from `TwoPortGModel`. -/
def InverseHybrid2 (T1 T2 : TwoPortG K) : Except PyError (TwoPortG K) := do
  let I1gsum := T1.I1g + T2.I1g
  let V2gsum := T1.V2g + T2.V2g
  let Gsum := T1.G + T2.G
  superBind .hybrid2Cls .inverseHybrid2Cls
  .ok ⟨Gsum, I1gsum, V2gsum⟩

/-- `FerriteBead.__init__` (oneport.py 1271-1284): stores the four
parameters, expands into the primitive network, then delegates through
`super(Xtal, self).__init__(N.Z, N.V)` — `Xtal`, although the class derives
from `Thevenin`.  CPython raises inside `super(Xtal, self)` before the
arguments `N.Z, N.V` are evaluated, so the would-be Thevenin state is never
built and is not modelled. -/
def FerriteBead (Rs Rp Cp Lp : K) : Except PyError Unit := do
  let _params := (Rs, Rp, Cp, Lp)
  superBind .xtalCls .ferriteBeadCls

/-- Unfolding lemma for the 2x2 matrix product. -/
theorem Matrix2.mul_eq (M N : Matrix2 K) :
    M * N = ⟨M.m11 * N.m11 + M.m12 * N.m21, M.m11 * N.m12 + M.m12 * N.m22,
      M.m21 * N.m11 + M.m22 * N.m21, M.m21 * N.m12 + M.m22 * N.m22⟩ := rfl

/-- C2: for every 2x2 chain matrix with nonzero determinant, converting to
the inverse-chain representation (`AMatrix.B`) and back (`BMatrix.A`)
returns the original matrix. -/
theorem chain_inverse_roundtrip (M : Matrix2 K) (h : M.det ≠ 0) :
    BMatrix.A (AMatrix.B M) = M := by
  obtain ⟨a, b, c, d⟩ := M
  have hd : a * d - b * c ≠ 0 := by simpa [Matrix2.det] using h
  have hd2 : d * a - b * c ≠ 0 := by
    rw [mul_comm d a]
    exact hd
  have hdet : (AMatrix.B ⟨a, b, c, d⟩ : Matrix2 K).det = 1 / (a * d - b * c) := by
    simp only [AMatrix.B, Matrix2.det]
    field_simp
    simp [mul_comm]
  simp only [BMatrix.A, hdet, AMatrix.B, Matrix2.det, Matrix2.mk.injEq]
  refine ⟨?_, ?_, ?_, ?_⟩ <;> field_simp <;> simp [mul_comm]

/-- C2, witness: the round trip at the concrete chain matrix
`[[1, 2], [3, 4]]` over ℚ, whose determinant is -2. -/
theorem chain_inverse_roundtrip_witness :
    BMatrix.A (AMatrix.B (⟨1, 2, 3, 4⟩ : Matrix2 ℚ)) = ⟨1, 2, 3, 4⟩ :=
  chain_inverse_roundtrip _ (by norm_num [Matrix2.det])

/-- C1 (amended): the B matrix of `Chain(T1, T2)` is the product
`T2.B * T1.B` — the downstream argument's matrix multiplies on the left,
not `T1.B * T2.B` as the claim states. -/
theorem chain_B_product (T1 T2 : TwoPortB K) :
    (Chain T1 T2).B = T2.B * T1.B := rfl

/-- C1, counterexample: chaining a series impedance of 1 into a shunt
admittance of 1 gives a B matrix whose (1,1) entry is 1, while the product
`T1.B * T2.B` promised by the claim has (1,1) entry 2. -/
theorem chain_B_order_cex :
    (Chain (Series (.thevenin 1 0)) (Shunt (.norton 1 0)) : TwoPortB ℚ).B ≠
      (Series (.thevenin (1:ℚ) 0)).B * (Shunt (.norton (1:ℚ) 0)).B := by
  intro h
  have h11 := congrArg Matrix2.m11 h
  simp [Chain, Series, Shunt, BMatrix.Zseries, BMatrix.Yshunt, OnePort.Z, OnePort.Y,
    Matrix2.mul_eq, OnePort.Voc, OnePort.Isc] at h11

/-- C3: for every one-port, the admittance is the reciprocal of the
impedance whenever the impedance is nonzero, and conversely whenever the
admittance is nonzero (Thevenin and Norton views stay consistent). -/
theorem oneport_Y_Z_reciprocal (X : OnePort K) :
    (X.Z ≠ 0 → X.Y = 1 / X.Z) ∧ (X.Y ≠ 0 → X.Z = 1 / X.Y) := by
  cases X with
  | thevenin Zval Vval =>
      constructor
      · intro _
        rfl
      · intro hy
        simp only [OnePort.Y, OnePort.Z]
        rw [one_div_one_div]
  | norton Yval Ival =>
      constructor
      · intro hz
        simp only [OnePort.Y, OnePort.Z]
        rw [one_div_one_div]
      · intro _
        rfl

/-- C3, witness: both directions at the concrete Thevenin pair (2, 3)
over ℚ. -/
theorem oneport_Y_Z_reciprocal_witness :
    ((OnePort.thevenin (2:ℚ) 3).Z ≠ 0 →
        (OnePort.thevenin (2:ℚ) 3).Y = 1 / (OnePort.thevenin (2:ℚ) 3).Z)
      ∧ ((OnePort.thevenin (2:ℚ) 3).Y ≠ 0 →
        (OnePort.thevenin (2:ℚ) 3).Z = 1 / (OnePort.thevenin (2:ℚ) 3).Y) :=
  oneport_Y_Z_reciprocal _

/-- The pair scan raises exactly when at least two children satisfy the
forbidden predicate: success is equivalent to at most one such child. -/
theorem pairScan_ok_iff (p : Prim K → Bool) (args : List (Prim K)) :
    pairScan p args = .ok () ↔ List.countP p args ≤ 1 := by
  induction args with
  | nil => simp [pairScan]
  | cons a rest ih =>
    by_cases ha : p a = true
    · by_cases hr : rest.any p = true
      · have h1 : 0 < List.countP p rest := by
          obtain ⟨x, hx, hpx⟩ := List.any_eq_true.mp hr
          exact List.countP_pos_iff.mpr ⟨x, hx, hpx⟩
        refine iff_of_false ?_ ?_
        · simp [pairScan, ha, hr]
        · simp only [List.countP_cons, ha, if_true]
          omega
      · have h0 : List.countP p rest = 0 := by
          refine List.countP_eq_zero.mpr ?_
          intro x hx
          by_contra hpx
          exact hr (List.any_eq_true.mpr ⟨x, hx, by simpa using hpx⟩)
        have hscan : pairScan p (a :: rest) = pairScan p rest := by
          simp [pairScan, ha, hr]
        rw [hscan, ih, List.countP_cons, h0, ha]
        simp
    · have hb : p a = false := by
        cases hpa : p a
        · rfl
        · exact absurd hpa ha
      have hscan : pairScan p (a :: rest) = pairScan p rest := by
        simp [pairScan, hb]
      rw [hscan, List.countP_cons, hb]
      simpa using ih

/-- C4 (amended): `Par` construction succeeds exactly when at most one
child is an instance of class `V`; with two `V` children it raises
regardless of their values, so equality of the sources is never examined. -/
theorem par_voltage_source_check (args : List (Prim K)) :
    Par_init args = .ok () ↔ List.countP (fun q => q.isV) args ≤ 1 :=
  pairScan_ok_iff _ args

/-- C4, counterexample: two equal pure voltage sources `V(5)` in parallel
still raise, although the claim says equal sources are well-formed. -/
theorem par_equal_voltage_sources_cex :
    Par_init [Prim.V (5:ℚ), Prim.V 5] = .error .valueError := rfl

/-- C5 (amended): `Ser` construction aborts exactly when at least two
children are instances of class `I`; a single pure current source among
other elements only triggers the printed warning and succeeds. -/
theorem ser_current_source_check (args : List (Prim K)) :
    Ser_init args = .ok () ↔ List.countP (fun q => q.isI) args ≤ 1 :=
  pairScan_ok_iff _ args

/-- C5, counterexample: a series combination of the pure current source
`I(5)` with the resistor `R(2)` constructs successfully, although the claim
says any pure current source beside another element is a hard error. -/
theorem ser_single_current_source_cex :
    Ser_init [Prim.I (5:ℚ), Prim.R 2] = .ok () := rfl

/-- Running the simplify scan on exactly two capacitors combines them by
the series closed-form rule. -/
theorem simplifySer_CC (c1 c2 v1 v2 : K) :
    simplifySer [Prim.C c1 v1, Prim.C c2 v2]
      = .ok [Prim.C (c1 * c2 / (c1 + c2)) (v1 + v2)] := rfl

/-- C6: simplifying `C(C1, v01) + C(C2, v02)` yields the single capacitor
`C(C1*C2/(C1+C2), v01+v02)`; in particular `C(10) + C(15)` simplifies to
`C(6)`, whose impedance `1/(s*C)` equals `1/(6*s)`. -/
theorem series_capacitor_rule (c1 c2 v1 v2 s : K) :
    simplifySer [Prim.C c1 v1, Prim.C c2 v2]
        = .ok [Prim.C (c1 * c2 / (c1 + c2)) (v1 + v2)]
      ∧ simplifySer [Prim.C (10:ℚ) 0, Prim.C 15 0] = .ok [Prim.C 6 0]
      ∧ Zs.C (6:K) s = 1 / (6 * s) := by
  refine ⟨simplifySer_CC c1 c2 v1 v2, ?_, ?_⟩
  · rw [simplifySer_CC]
    norm_num
  · simp only [Zs.C]
    ring

/-- C7: converting the A matrix of a pure series impedance (A12 nonzero,
A21 zero) to a Z matrix fires the dodgy-matrix warning but still returns
the matrix computed by the closed-form formula. -/
theorem a_to_z_degenerate_warns (M : Matrix2 K) (h12 : M.m12 ≠ 0) (h21 : M.m21 = 0) :
    (AMatrix.Z M).1 = true ∧
      (AMatrix.Z M).2 =
        ⟨M.m11 / M.m21, M.det / M.m21, 1 / M.m21, M.m22 / M.m21⟩ := by
  refine ⟨?_, rfl⟩
  simp [AMatrix.Z, h21]

/-- C7, witness: the conversion at the A matrix of a concrete series
impedance of 2 over ℚ. -/
theorem a_to_z_degenerate_warns_witness :
    (AMatrix.Z (AMatrix.Zseries (2:ℚ))).1 = true ∧
      (AMatrix.Z (AMatrix.Zseries (2:ℚ))).2 =
        ⟨(AMatrix.Zseries (2:ℚ)).m11 / (AMatrix.Zseries (2:ℚ)).m21,
         (AMatrix.Zseries (2:ℚ)).det / (AMatrix.Zseries (2:ℚ)).m21,
         1 / (AMatrix.Zseries (2:ℚ)).m21,
         (AMatrix.Zseries (2:ℚ)).m22 / (AMatrix.Zseries (2:ℚ)).m21⟩ :=
  a_to_z_degenerate_warns _ (by norm_num [AMatrix.Zseries]) rfl

/-- C8 (amended): `Par2` sums the operands' admittance matrices and port
source currents; its printed warning fires exactly when an operand is an
instance of class `Shunt` (whose admittance conversion divides by
B12 = 0), not when an operand is a pure-series two-port. -/
theorem par2_shunt_warning (T1 T2 : TwoPortB K) :
    ((Par2 T1 T2).1 = true ↔ T1.cls = TPClass.shuntCls ∨ T2.cls = TPClass.shuntCls)
      ∧ (Par2 T1 T2).2.Y = BMatrix.Y T1.B + BMatrix.Y T2.B
      ∧ (Par2 T1 T2).2.I1y = T1.I1y + T2.I1y
      ∧ (Par2 T1 T2).2.I2y = T1.I2y + T2.I2y := by
  refine ⟨?_, rfl, rfl, rfl⟩
  simp [Par2]

/-- C8, counterexample: paralleling the pure-series two-port
`Series(Z(2))` with itself: the operand satisfies the `isseries` B-pattern
and has a singular (zero-determinant) admittance matrix, yet the
combination is not flagged. -/
theorem par2_series_not_flagged_cex :
    (Series (OnePort.thevenin (2:ℚ) 0)).isseries = true
      ∧ Matrix2.det ((Series (OnePort.thevenin (2:ℚ) 0)).Y) = 0
      ∧ (Par2 (Series (OnePort.thevenin (2:ℚ) 0))
          (Series (OnePort.thevenin (2:ℚ) 0))).1 = false := by
  refine ⟨?_, ?_, rfl⟩
  · simp [TwoPortB.isseries, Series, BMatrix.Zseries]
  · norm_num [TwoPortB.Y, BMatrix.Y, Series, BMatrix.Zseries, Matrix2.det, OnePort.Z,
      OnePort.Voc]

/-- C9: `InverseHybrid2` construction always raises: `super(Hybrid2, self)`
rejects the instance because `InverseHybrid2` derives from `TwoPortGModel`,
not from `Hybrid2`, so the summed G model is never returned. -/
theorem inverseHybrid2_always_raises (T1 T2 : TwoPortG K) :
    InverseHybrid2 T1 T2 = .error .typeError := rfl

/-- C10: for every argument tuple, `FerriteBead` construction raises:
`super(Xtal, self)` rejects the instance because `FerriteBead` derives from
`Thevenin`, not from `Xtal`, so the compound primitive can never be built. -/
theorem ferriteBead_always_raises (Rs Rp Cp Lp : K) :
    FerriteBead Rs Rp Cp Lp = .error .typeError := rfl

end Lcapy
